import Mathlib

/-!
Verification development for the ESP32 "Space Farm" firmware
(`space_farm_final.ino`): a shallow embedding of the device state machine,
the pump control loop and the request handlers, together with theorems
about the control-loop and handler behaviour.

Modelling conventions:
* C `int`/`long` arithmetic is modelled on `Int`; the truncating C division
  used by Arduino's `map` is `Int.tdiv`.
* `uint32_t` millisecond timestamps are modelled as `Nat` reduced modulo
  2^32 (`wrap32`), and `uint32_t` subtraction as `sub32`.
* `uint8_t` stored LED levels are modelled as `Nat` values obtained by the
  C conversion `int -> uint8_t`, i.e. reduction modulo 256 (`u8ofInt`).
* DHT float readings are modelled as `Option Rat`: `none` stands for `NAN`
  (a failed probe read), `some q` for an ordinary finite reading.  The
  firmware never computes with these values, it only caches and reports
  them, so exact rationals are a faithful stand-in and no floating-point
  arithmetic needs to be modelled.
* The NVS preference store (namespace "spacefarm") is a record of three
  optional unsigned bytes; `Option` distinguishes "key absent" from a
  stored value, matching `Preferences::getUChar(key, default)`.
* HTTP responses are a status code plus the exact body string the handler
  builds (JSON serialisation of floats is kept structural in the one
  handler that reports floats, since no claim depends on float printing).
-/

namespace SpaceFarm

/-- Source constant `SOIL_ON_THR` (percent, turn ON at or below). -/
def SOIL_ON_THR : Int := 30

/-- Source constant `SOIL_OFF_THR` (percent, turn OFF at or above). -/
def SOIL_OFF_THR : Int := 55

/-- Source constant `PUMP_MIN_ON_MS` (minimum pump on time, ms). -/
def PUMP_MIN_ON_MS : Nat := 10000

/-- Source constant `READ_INTERVAL_MS` (sampling cadence, ms). -/
def READ_INTERVAL_MS : Nat := 2000

/-- Reduction modulo 2^32: the value a C `uint32_t` holds for a
mathematical count `n` of milliseconds since boot. -/
def wrap32 (n : Nat) : Nat := n % 4294967296

/-- C `uint32_t` subtraction `a - b` (wraparound-correct), as used by the
firmware for `now - lastReadMs` and `now - pumpLastOnMs`. -/
def sub32 (a b : Nat) : Nat :=
  (4294967296 + a % 4294967296 - b % 4294967296) % 4294967296

/-- C conversion `int -> uint8_t`, i.e. reduction modulo 256. -/
def u8ofInt (v : Int) : Nat := (v % 256).toNat

/-- Source enum `PumpMode { PM_OFF=0, PM_AUTO=1, PM_ON=2 }`. -/
inductive PumpMode where
  | PM_OFF
  | PM_AUTO
  | PM_ON
deriving DecidableEq

/-- The numeric value of a `PumpMode` enumerator, as persisted by
`savePump` via `(uint8_t)m`. -/
def pumpModeCode : PumpMode → Nat
  | .PM_OFF => 0
  | .PM_AUTO => 1
  | .PM_ON => 2

/-- The C cast `(PumpMode)x` applied to a stored byte, as in `loadState`.
The store only ever holds bytes written by `savePump`, i.e. 0, 1 or 2;
other values never occur in a program trace (the fallback branch picks
`PM_OFF`, the persisted default). -/
def pumpModeOfCode (n : Nat) : PumpMode :=
  if n = 1 then .PM_AUTO else if n = 2 then .PM_ON else .PM_OFF

/-- The NVS namespace "spacefarm": three independently persisted unsigned
bytes, `none` when the key has never been written. -/
structure Prefs where
  red : Option Nat
  blue : Option Nat
  pump : Option Nat
deriving DecidableEq

/-- The firmware's global mutable state: persisted actuator levels, pump
state machine variables, the sensor cache, and the last values written to
the physical outputs (LEDC PWM duties and the pump GPIO). -/
structure DeviceState where
  redLevel : Nat
  blueLevel : Nat
  pumpMode : PumpMode
  pumpOn : Bool
  pumpLastOnMs : Nat
  lastReadMs : Nat
  lastTempC : Option Rat
  lastHumidity : Option Rat
  dhtOk : Bool
  pwmRed : Int
  pwmBlue : Int
  pumpPin : Bool
  prefs : Prefs
deriving DecidableEq

/-- Source `int clamp255(int v)`: `v<0?0:(v>255?255:v)`. -/
def clamp255 (v : Int) : Int := if v < 0 then 0 else if v > 255 then 255 else v

/-- Source constant `RAW_DRY` in `soilPercentFromADC`. -/
def RAW_DRY : Int := 3000

/-- Source constant `RAW_WET` in `soilPercentFromADC`. -/
def RAW_WET : Int := 1100

/-- Arduino's `long map(long x, long in_min, long in_max, long out_min,
long out_max)`: `(x - in_min) * (out_max - out_min) / (in_max - in_min) +
out_min`, with C truncating division. -/
def arduinoMap (x inMin inMax outMin outMax : Int) : Int :=
  Int.tdiv ((x - inMin) * (outMax - outMin)) (inMax - inMin) + outMin

/-- Source `int soilPercentFromADC(int raw)`: `map` from the calibrated
dry/wet raw bounds to 0..100, then clamped below by 0 and above by 100. -/
def soilPercentFromADC (raw : Int) : Int :=
  let pct := arduinoMap raw RAW_DRY RAW_WET 0 100
  let pct := if pct < 0 then 0 else pct
  let pct := if pct > 100 then 100 else pct
  pct

/-- Model of Arduino `String::toInt()` (newlib `atol`): skip leading
whitespace, accept one optional sign, then read a run of decimal digits;
a string with no digits at that point yields 0.  `strtol`'s saturation at
`LONG_MAX`/`LONG_MIN` on overflow is not modelled: every use in the
firmware immediately clamps the result to [0,255], and clamping the
saturated value and clamping the exact value agree for every input, so
the composed behaviour is identical. -/
def atolM (str : String) : Int :=
  let cs := str.toList.dropWhile (fun c =>
    c = ' ' || c = '\t' || c = '\n' || c = '\x0b' || c = '\x0c' || c = '\r')
  let digitsVal := fun (l : List Char) =>
    (l.foldl (fun acc c => 10 * acc + (c.toNat - 48)) 0 : Nat)
  match cs with
  | '-' :: rest => -(digitsVal (rest.takeWhile Char.isDigit) : Int)
  | '+' :: rest => (digitsVal (rest.takeWhile Char.isDigit) : Int)
  | _ => (digitsVal (cs.takeWhile Char.isDigit) : Int)

/-- True when the value string is numeric for `atolM`, i.e. when the digit
run it reads (after optional whitespace and an optional sign) is nonempty.
Strings like "abc" for which this is false parse to 0. -/
def startsNumeric (str : String) : Bool :=
  match str.toList.dropWhile (fun c =>
    c = ' ' || c = '\t' || c = '\n' || c = '\x0b' || c = '\x0c' || c = '\r') with
  | '-' :: rest => !(rest.takeWhile Char.isDigit).isEmpty
  | '+' :: rest => !(rest.takeWhile Char.isDigit).isEmpty
  | cs => !(cs.takeWhile Char.isDigit).isEmpty

/-- C `toupper` on the ASCII range, as Arduino `String::toUpperCase`
applies it to each character. -/
def upperChar (c : Char) : Char :=
  if 'a' ≤ c ∧ c ≤ 'z' then Char.ofNat (c.toNat - 32) else c

/-- Arduino `String::toUpperCase`: `toupper` applied to every character. -/
def upperStr (m : String) : String := String.mk (m.toList.map upperChar)

/-- An HTTP response: status code and exact body text. -/
structure Response where
  code : Nat
  body : String
deriving DecidableEq

/-- The JSON payload of `/api/sensors`, kept structural (field values
before serialisation): `temp`/`humidity` are nullable, `soil` and
`sensor_ok` always present. -/
structure SensorsOut where
  temp : Option Rat
  humidity : Option Rat
  soil : Int
  sensorOk : Bool
deriving DecidableEq

/-- Source `void handleSensors()`: read the DHT probe (arguments `t`,`h`;
`none` models a `NAN` result), set `ok` iff both values are non-NAN; on
success overwrite the cached `lastTempC`/`lastHumidity` and set
`dhtOk=true`, on failure leave the cache untouched and set `dhtOk=false`;
always read and report the soil percentage. -/
def handleSensors (t h : Option Rat) (soilRaw : Int) (s : DeviceState) :
    DeviceState × SensorsOut :=
  let ok := t.isSome && h.isSome
  let s1 := if ok
    then { s with lastTempC := t, lastHumidity := h, dhtOk := true }
    else { s with dhtOk := false }
  let soilPct := soilPercentFromADC soilRaw
  (s1, { temp := s1.lastTempC, humidity := s1.lastHumidity,
         soil := soilPct, sensorOk := ok })

/-- Source `void handleSetLed(const String& which)`: 400 when the `value`
argument is absent; otherwise parse it with `toInt`, clamp to [0,255],
store it in the matching level field, write it to the matching LEDC
channel, persist it under the matching NVS key, and answer 200 with the
applied value. -/
def handleSetLed (which : String) (valueArg : Option String) (s : DeviceState) :
    DeviceState × Response :=
  match valueArg with
  | none => (s, ⟨400, "\x7b\"error\":\"missing value\"\x7d"⟩)
  | some a =>
    let v := clamp255 (atolM a)
    let s1 := if which = "red"
      then { s with redLevel := u8ofInt v, pwmRed := v,
                    prefs := { s.prefs with red := some (u8ofInt v) } }
      else s
    let s2 := if which = "blue"
      then { s1 with blueLevel := u8ofInt v, pwmBlue := v,
                     prefs := { s1.prefs with blue := some (u8ofInt v) } }
      else s1
    (s2, ⟨200, "\x7b\"ok\":true,\"" ++ which ++ "\":" ++ toString v ++ "\x7d"⟩)

/-- Source `void handlePumpSet()`: 400 when the `mode` argument is absent;
otherwise uppercase it and compare with OFF/AUTO/ON; an unknown string is
a 400 leaving the state untouched; a match stores the mode, persists it
via `savePump` and answers 200 echoing the uppercased mode. -/
def handlePumpSet (modeArg : Option String) (s : DeviceState) :
    DeviceState × Response :=
  match modeArg with
  | none => (s, ⟨400, "\x7b\"error\":\"missing mode\"\x7d"⟩)
  | some m0 =>
    let m := upperStr m0
    let put := fun (md : PumpMode) =>
      ({ s with pumpMode := md,
                prefs := { s.prefs with pump := some (pumpModeCode md) } },
       (⟨200, "\x7b\"ok\":true,\"mode\":\"" ++ m ++ "\"\x7d"⟩ : Response))
    if m = "OFF" then put .PM_OFF
    else if m = "AUTO" then put .PM_AUTO
    else if m = "ON" then put .PM_ON
    else (s, ⟨400, "\x7b\"error\":\"mode must be OFF|AUTO|ON\"\x7d"⟩)

/-- Source `void handlePumpGet()`: report the mode name and the actuator
status derived from `pumpOn`. -/
def handlePumpGet (s : DeviceState) : Response :=
  let modeStr := if s.pumpMode = .PM_OFF then "OFF"
    else if s.pumpMode = .PM_AUTO then "AUTO" else "ON"
  ⟨200, "\x7b\"mode\":\"" ++ modeStr ++ "\",\"status\":\"" ++
        (if s.pumpOn then "ON" else "OFF") ++ "\"\x7d"⟩

/-- Source `void handleStateGet()`: report the persisted snapshot
(red level, blue level, numeric pump mode). -/
def handleStateGet (s : DeviceState) : Response :=
  ⟨200, "\x7b\"red\":" ++ toString s.redLevel ++ ",\"blue\":" ++
        toString s.blueLevel ++ ",\"pump\":" ++
        toString (pumpModeCode s.pumpMode) ++ "\x7d"⟩

/-- Source `void loadState()`: read the three NVS keys with defaults
`red=0`, `blue=0`, `pump=PM_OFF`; read-only on the store. -/
def loadState (store : Prefs) : Nat × Nat × PumpMode :=
  (store.red.getD 0, store.blue.getD 0, pumpModeOfCode (store.pump.getD 0))

/-- Source `void setup()` restricted to state initialisation: apply
`loadState`, drive the pump GPIO low, write the restored levels to the
LEDC channels; all other globals start at their C initialisers
(`pumpOn=false`, `pumpLastOnMs=0`, `lastReadMs=0`, `lastTempC=NAN`,
`lastHumidity=NAN`, `dhtOk=false`). -/
def bootState (store : Prefs) : DeviceState :=
  let l := loadState store
  { redLevel := l.1, blueLevel := l.2.1, pumpMode := l.2.2,
    pumpOn := false, pumpLastOnMs := 0, lastReadMs := 0,
    lastTempC := none, lastHumidity := none, dhtOk := false,
    pwmRed := (l.1 : Int), pwmBlue := (l.2.1 : Int), pumpPin := false,
    prefs := store }

/-- The state after first boot with an empty NVS store. -/
def initialState : DeviceState := bootState ⟨none, none, none⟩

/-- The body of the timed block in `loop()` (a "control tick"): record
`lastReadMs=now`, read the soil sensor (`soilRaw` is the ADC value the
environment supplies) and run the pump state machine.  `now0` is the
mathematical millisecond count; `millis()` hands the firmware its value
modulo 2^32. -/
def controlStep (now0 : Nat) (soilRaw : Int) (s : DeviceState) : DeviceState :=
  let now := wrap32 now0
  let soilPct := soilPercentFromADC soilRaw
  match s.pumpMode with
  | .PM_AUTO =>
    if s.pumpOn = false ∧ soilPct ≤ SOIL_ON_THR then
      { s with lastReadMs := now, pumpOn := true, pumpLastOnMs := now, pumpPin := true }
    else if s.pumpOn = true then
      if PUMP_MIN_ON_MS ≤ sub32 now s.pumpLastOnMs ∧ SOIL_OFF_THR ≤ soilPct then
        { s with lastReadMs := now, pumpOn := false, pumpPin := false }
      else { s with lastReadMs := now }
    else { s with lastReadMs := now }
  | .PM_ON =>
    if s.pumpOn = false then
      { s with lastReadMs := now, pumpOn := true, pumpPin := true }
    else { s with lastReadMs := now }
  | .PM_OFF =>
    if s.pumpOn = true then
      { s with lastReadMs := now, pumpOn := false, pumpPin := false }
    else { s with lastReadMs := now }

/-- One iteration of `loop()` restricted to its timed part: the control
tick runs exactly when `now - lastReadMs >= READ_INTERVAL_MS` in uint32
arithmetic, otherwise the state is untouched. -/
def loopIter (now0 : Nat) (soilRaw : Int) (s : DeviceState) : DeviceState :=
  if READ_INTERVAL_MS ≤ sub32 (wrap32 now0) s.lastReadMs
  then controlStep now0 soilRaw s
  else s

/-- The case-insensitive mode match the pump-set endpoint performs, as an
optional parse of the uppercased argument. -/
def modeOfUpper (m : String) : Option PumpMode :=
  if m = "OFF" then some .PM_OFF
  else if m = "AUTO" then some .PM_AUTO
  else if m = "ON" then some .PM_ON
  else none

/-- One step of the cooperative loop, as seen by the shared state: either
the timed control tick fires, or one of the request handlers runs to
completion (the two read-only endpoints touch nothing). -/
inductive Event where
  | tick (now : Nat) (soilRaw : Int)
  | ledReq (which : String) (valueArg : Option String)
  | pumpReq (modeArg : Option String)
  | sensorsReq (t h : Option Rat) (soilRaw : Int)
  | pumpGetReq
  | stateGetReq

/-- State effect of one loop step. -/
def applyEvent (s : DeviceState) : Event → DeviceState
  | .tick now raw => controlStep now raw s
  | .ledReq w a => (handleSetLed w a s).1
  | .pumpReq m => (handlePumpSet m s).1
  | .sensorsReq t h raw => (handleSensors t h raw s).1
  | .pumpGetReq => s
  | .stateGetReq => s

/-- Folding a sequence of interleaved loop steps over a state. -/
def runEvents (s : DeviceState) (es : List Event) : DeviceState :=
  es.foldl applyEvent s

/-- Events under which the pump mode stays AUTO: everything except a
pump-set request carrying a valid OFF or ON argument. -/
def keepsAuto : Event → Prop
  | .pumpReq (some arg) =>
      modeOfUpper (upperStr arg) = none ∨ modeOfUpper (upperStr arg) = some .PM_AUTO
  | _ => True

/-- The times of all tick events in the sequence lie in `[lo, hi)`. -/
def tickTimesIn (lo hi : Nat) : Event → Prop
  | .tick now _ => lo ≤ now ∧ now < hi
  | _ => True

/-! ### Arithmetic helper lemmas -/

theorem sub32_wrap_left (a b : Nat) : sub32 (wrap32 a) b = sub32 a b := by
  unfold sub32 wrap32; omega

theorem sub32_wrap_right (a b : Nat) : sub32 a (wrap32 b) = sub32 a b := by
  unfold sub32 wrap32; omega

theorem sub32_of_le (a b : Nat) (h1 : b ≤ a) (h2 : a - b < 4294967296) :
    sub32 a b = a - b := by
  unfold sub32; omega

/-! ### Branch characterisations of the control tick -/

theorem controlStep_auto_turn_on {s : DeviceState} {now : Nat} {raw : Int}
    (h1 : s.pumpMode = .PM_AUTO) (h2 : s.pumpOn = false)
    (h3 : soilPercentFromADC raw ≤ SOIL_ON_THR) :
    controlStep now raw s =
      { s with lastReadMs := wrap32 now, pumpOn := true,
               pumpLastOnMs := wrap32 now, pumpPin := true } := by
  unfold controlStep; rw [h1]; simp [h2, h3]

theorem controlStep_auto_idle {s : DeviceState} {now : Nat} {raw : Int}
    (h1 : s.pumpMode = .PM_AUTO) (h2 : s.pumpOn = false)
    (h3 : ¬ soilPercentFromADC raw ≤ SOIL_ON_THR) :
    controlStep now raw s = { s with lastReadMs := wrap32 now } := by
  unfold controlStep; rw [h1]; simp [h2, h3]

theorem controlStep_auto_keep_on {s : DeviceState} {now : Nat} {raw : Int}
    (h1 : s.pumpMode = .PM_AUTO) (h2 : s.pumpOn = true)
    (h3 : ¬ (PUMP_MIN_ON_MS ≤ sub32 now s.pumpLastOnMs
             ∧ SOIL_OFF_THR ≤ soilPercentFromADC raw)) :
    controlStep now raw s = { s with lastReadMs := wrap32 now } := by
  unfold controlStep; rw [h1]; simp [h2, sub32_wrap_left, h3]

theorem controlStep_auto_turn_off {s : DeviceState} {now : Nat} {raw : Int}
    (h1 : s.pumpMode = .PM_AUTO) (h2 : s.pumpOn = true)
    (h3 : PUMP_MIN_ON_MS ≤ sub32 now s.pumpLastOnMs)
    (h4 : SOIL_OFF_THR ≤ soilPercentFromADC raw) :
    controlStep now raw s =
      { s with lastReadMs := wrap32 now, pumpOn := false, pumpPin := false } := by
  unfold controlStep; rw [h1]; simp [h2, sub32_wrap_left, h3, h4]

theorem controlStep_on_turn_on {s : DeviceState} {now : Nat} {raw : Int}
    (h1 : s.pumpMode = .PM_ON) (h2 : s.pumpOn = false) :
    controlStep now raw s =
      { s with lastReadMs := wrap32 now, pumpOn := true, pumpPin := true } := by
  unfold controlStep; rw [h1]; simp [h2]

theorem controlStep_on_stay {s : DeviceState} {now : Nat} {raw : Int}
    (h1 : s.pumpMode = .PM_ON) (h2 : s.pumpOn = true) :
    controlStep now raw s = { s with lastReadMs := wrap32 now } := by
  unfold controlStep; rw [h1]; simp [h2]

theorem controlStep_off_turn_off {s : DeviceState} {now : Nat} {raw : Int}
    (h1 : s.pumpMode = .PM_OFF) (h2 : s.pumpOn = true) :
    controlStep now raw s =
      { s with lastReadMs := wrap32 now, pumpOn := false, pumpPin := false } := by
  unfold controlStep; rw [h1]; simp [h2]

theorem controlStep_off_stay {s : DeviceState} {now : Nat} {raw : Int}
    (h1 : s.pumpMode = .PM_OFF) (h2 : s.pumpOn = false) :
    controlStep now raw s = { s with lastReadMs := wrap32 now } := by
  unfold controlStep; rw [h1]; simp [h2]

theorem controlStep_pumpMode (now : Nat) (raw : Int) (s : DeviceState) :
    (controlStep now raw s).pumpMode = s.pumpMode := by
  cases h1 : s.pumpMode <;> cases h2 : s.pumpOn
  · rw [controlStep_off_stay h1 h2]; exact h1
  · rw [controlStep_off_turn_off h1 h2]; exact h1
  · by_cases h3 : soilPercentFromADC raw ≤ SOIL_ON_THR
    · rw [controlStep_auto_turn_on h1 h2 h3]; exact h1
    · rw [controlStep_auto_idle h1 h2 h3]; exact h1
  · by_cases h3 : PUMP_MIN_ON_MS ≤ sub32 now s.pumpLastOnMs
               ∧ SOIL_OFF_THR ≤ soilPercentFromADC raw
    · rw [controlStep_auto_turn_off h1 h2 h3.1 h3.2]; exact h1
    · rw [controlStep_auto_keep_on h1 h2 h3]; exact h1
  · rw [controlStep_on_turn_on h1 h2]; exact h1
  · rw [controlStep_on_stay h1 h2]; exact h1

/-! ### Soil mapping lemmas -/

theorem soil_linear (raw : Int) (h : raw ≤ RAW_DRY) :
    arduinoMap raw RAW_DRY RAW_WET 0 100
      = ((RAW_DRY - raw) * 100) / (RAW_DRY - RAW_WET) := by
  unfold arduinoMap RAW_DRY RAW_WET
  unfold RAW_DRY at h
  rw [show ((raw - 3000) * (100 - 0) : Int) = -((3000 - raw) * 100) by ring,
      show ((1100 : Int) - 3000) = -1900 by norm_num,
      show ((3000 : Int) - 1100) = 1900 by norm_num,
      Int.tdiv_neg, ← Int.neg_tdiv, neg_neg,
      Int.tdiv_eq_ediv (mul_nonneg (by omega) (by norm_num)) (by norm_num),
      add_zero]

theorem soil_linear_bounds (raw : Int) (h1 : RAW_WET ≤ raw) (h2 : raw ≤ RAW_DRY) :
    0 ≤ ((RAW_DRY - raw) * 100) / (RAW_DRY - RAW_WET)
      ∧ ((RAW_DRY - raw) * 100) / (RAW_DRY - RAW_WET) ≤ 100 := by
  unfold RAW_DRY RAW_WET at *
  constructor
  · exact Int.ediv_nonneg (mul_nonneg (by omega) (by norm_num)) (by norm_num)
  · calc ((3000 - raw) * 100 : Int) / (3000 - 1100)
        ≤ 190000 / (3000 - 1100) := Int.ediv_le_ediv (by norm_num) (by nlinarith)
    _ = 100 := by norm_num

theorem soilPercentFromADC_eq_linear (raw : Int) (h1 : RAW_WET ≤ raw) (h2 : raw ≤ RAW_DRY) :
    soilPercentFromADC raw = ((RAW_DRY - raw) * 100) / (RAW_DRY - RAW_WET) := by
  have hb := soil_linear_bounds raw h1 h2
  simp only [soilPercentFromADC, soil_linear raw h2]
  rw [if_neg (by omega), if_neg (by omega)]

/-- C6: For every raw ADC reading the computed soil percentage lies in
[0,100]; readings at or above the calibrated dry bound give 0, readings at
or below the calibrated wet bound give 100, and between the bounds the
value is the linear map of the raw reading (integer division by the
calibrated span), hence monotone non-increasing in the raw value. -/
theorem soil_percent_mapping :
    (∀ raw : Int, 0 ≤ soilPercentFromADC raw ∧ soilPercentFromADC raw ≤ 100)
  ∧ (∀ raw : Int, RAW_DRY ≤ raw → soilPercentFromADC raw = 0)
  ∧ (∀ raw : Int, raw ≤ RAW_WET → soilPercentFromADC raw = 100)
  ∧ (∀ raw : Int, RAW_WET ≤ raw → raw ≤ RAW_DRY →
       soilPercentFromADC raw = ((RAW_DRY - raw) * 100) / (RAW_DRY - RAW_WET))
  ∧ (∀ a b : Int, RAW_WET ≤ a → a ≤ b → b ≤ RAW_DRY →
       soilPercentFromADC b ≤ soilPercentFromADC a) := by
  refine ⟨?_, ?_, ?_, soilPercentFromADC_eq_linear, ?_⟩
  · intro raw
    simp only [soilPercentFromADC]
    split_ifs <;> omega
  · intro raw h
    have hp : arduinoMap raw RAW_DRY RAW_WET 0 100 ≤ 0 := by
      unfold arduinoMap
      have hnn : (0 : Int) ≤ (raw - RAW_DRY) * (100 - 0) := by
        unfold RAW_DRY at h ⊢; exact mul_nonneg (by omega) (by norm_num)
      have := Int.tdiv_nonpos hnn
        (show (RAW_WET - RAW_DRY : Int) ≤ 0 by unfold RAW_WET RAW_DRY; norm_num)
      omega
    simp only [soilPercentFromADC]
    split_ifs <;> omega
  · intro raw h
    have h100 : 100 ≤ arduinoMap raw RAW_DRY RAW_WET 0 100 := by
      rw [soil_linear raw (by unfold RAW_WET RAW_DRY at *; omega)]
      unfold RAW_WET RAW_DRY at *
      calc (100 : Int) = 190000 / (3000 - 1100) := by norm_num
      _ ≤ ((3000 - raw) * 100) / (3000 - 1100) :=
          Int.ediv_le_ediv (by norm_num) (by nlinarith)
    simp only [soilPercentFromADC]
    split_ifs <;> omega
  · intro a b h1 h2 h3
    rw [soilPercentFromADC_eq_linear a h1 (le_trans h2 h3),
        soilPercentFromADC_eq_linear b (le_trans h1 h2) h3]
    exact Int.ediv_le_ediv (by norm_num [RAW_DRY, RAW_WET])
      (mul_le_mul_of_nonneg_right (by omega) (by norm_num))

/-- Witness for C6 at concrete readings: an in-band reading, a reading
beyond the dry bound, a reading beyond the wet bound, the linear formula
in-band, and monotonicity between two in-band readings. -/
theorem soil_percent_mapping_witness :
    (0 ≤ soilPercentFromADC 2000 ∧ soilPercentFromADC 2000 ≤ 100)
  ∧ soilPercentFromADC 3500 = 0
  ∧ soilPercentFromADC 500 = 100
  ∧ soilPercentFromADC 2430 = ((RAW_DRY - 2430) * 100) / (RAW_DRY - RAW_WET)
  ∧ soilPercentFromADC 2430 ≤ soilPercentFromADC 2411 := by
  have h := soil_percent_mapping
  exact ⟨h.1 2000,
         h.2.1 3500 (by norm_num [RAW_DRY]),
         h.2.2.1 500 (by norm_num [RAW_WET]),
         h.2.2.2.1 2430 (by norm_num [RAW_WET]) (by norm_num [RAW_DRY]),
         h.2.2.2.2 2411 2430 (by norm_num [RAW_WET]) (by norm_num) (by norm_num [RAW_DRY])⟩

/-! ### Pump state machine claims -/

/-- C2: at a control tick with pumpMode=AUTO and the pump off, the tick
switches the pump on and records pumpLastOnMs=now exactly when the soil
percentage is at or below the ON threshold 30. -/
theorem auto_turn_on_threshold (s : DeviceState) (now : Nat) (raw : Int)
    (hmode : s.pumpMode = .PM_AUTO) (hoff : s.pumpOn = false) :
    ((controlStep now raw s).pumpOn = true
       ∧ (controlStep now raw s).pumpLastOnMs = wrap32 now)
      ↔ soilPercentFromADC raw ≤ SOIL_ON_THR := by
  constructor
  · intro hc
    by_cases h3 : soilPercentFromADC raw ≤ SOIL_ON_THR
    · exact h3
    · rw [controlStep_auto_idle hmode hoff h3] at hc
      simp [hoff] at hc
  · intro h3
    rw [controlStep_auto_turn_on hmode hoff h3]
    exact ⟨rfl, rfl⟩

/-- Witness for C2: raw reading 2430 maps to soil percentage 30 and
triggers the ON transition recording the tick time; raw reading 2411 maps
to 31 and does not trigger it. -/
theorem auto_turn_on_threshold_witness :
    ((controlStep 7 2430 { initialState with pumpMode := .PM_AUTO }).pumpOn = true
       ∧ (controlStep 7 2430
            { initialState with pumpMode := .PM_AUTO }).pumpLastOnMs = wrap32 7)
  ∧ soilPercentFromADC 2430 = 30
  ∧ soilPercentFromADC 2411 = 31
  ∧ ¬ ((controlStep 7 2411 { initialState with pumpMode := .PM_AUTO }).pumpOn = true
       ∧ (controlStep 7 2411
            { initialState with pumpMode := .PM_AUTO }).pumpLastOnMs = wrap32 7) := by
  refine ⟨(auto_turn_on_threshold _ 7 2430 rfl rfl).mpr (by decide), by decide, by decide, ?_⟩
  intro hc
  exact absurd ((auto_turn_on_threshold _ 7 2411 rfl rfl).mp hc) (by decide)

/-- C3: after any control tick the pump can be on only in mode AUTO or ON;
and a control tick evaluated with pumpMode=OFF forces the pump off and
drives the pump output low, regardless of the soil reading and of the
minimum-on timer. -/
theorem pump_mode_off_forces_off (s : DeviceState) (now : Nat) (raw : Int)
    (hpin : s.pumpPin = s.pumpOn) :
    ((controlStep now raw s).pumpOn = true →
       (controlStep now raw s).pumpMode = .PM_AUTO
       ∨ (controlStep now raw s).pumpMode = .PM_ON)
  ∧ (s.pumpMode = .PM_OFF →
       (controlStep now raw s).pumpOn = false
       ∧ (controlStep now raw s).pumpPin = false) := by
  constructor
  · intro hon
    rw [controlStep_pumpMode]
    cases h1 : s.pumpMode
    case PM_OFF =>
      exfalso
      cases h2 : s.pumpOn
      · rw [controlStep_off_stay h1 h2] at hon
        simp [h2] at hon
      · rw [controlStep_off_turn_off h1 h2] at hon
        simp at hon
    case PM_AUTO => exact Or.inl rfl
    case PM_ON => exact Or.inr rfl
  · intro h1
    cases h2 : s.pumpOn
    · rw [controlStep_off_stay h1 h2]
      exact ⟨h2, hpin.trans h2⟩
    · rw [controlStep_off_turn_off h1 h2]
      exact ⟨rfl, rfl⟩

/-- Witness for C3: a state with mode OFF and the pump (and its GPIO) on
is forced off, pin low, by the next control tick. -/
theorem pump_mode_off_forces_off_witness :
    (controlStep 3000 2000
      { initialState with pumpMode := .PM_OFF, pumpOn := true, pumpPin := true }).pumpOn
        = false
  ∧ (controlStep 3000 2000
      { initialState with pumpMode := .PM_OFF, pumpOn := true, pumpPin := true }).pumpPin
        = false :=
  (pump_mode_off_forces_off _ 3000 2000 rfl).2 rfl

/-- C9 counterexample: with pumpMode=ON and the pump off, the control tick
at time 5000 performs an OFF-to-ON transition of pumpOn but leaves
pumpLastOnMs at its stale value 0, so pumpLastOnMs does not record the
timestamp of the most recent OFF-to-ON transition. -/
theorem pump_on_mode_stale_lastOn_cex :
    ({ initialState with pumpMode := .PM_ON } : DeviceState).pumpOn = false
  ∧ (controlStep 5000 2000 { initialState with pumpMode := .PM_ON }).pumpOn = true
  ∧ (controlStep 5000 2000 { initialState with pumpMode := .PM_ON }).pumpLastOnMs = 0
  ∧ (5000 : Nat) ≠ 0 := by decide

/-- C9 amended: pumpLastOnMs is written only by the AUTO-mode OFF-to-ON
transition (soil percentage at or below the ON threshold), where it is set
to the tick time; a control tick in mode ON never changes it, so an
OFF-to-ON transition forced by mode ON leaves it stale. -/
theorem pumpLastOn_auto_only (s : DeviceState) (now : Nat) (raw : Int) :
    ((controlStep now raw s).pumpLastOnMs ≠ s.pumpLastOnMs →
       (s.pumpMode = .PM_AUTO ∧ s.pumpOn = false
        ∧ soilPercentFromADC raw ≤ SOIL_ON_THR
        ∧ (controlStep now raw s).pumpOn = true
        ∧ (controlStep now raw s).pumpLastOnMs = wrap32 now))
  ∧ (s.pumpMode = .PM_AUTO → s.pumpOn = false →
       soilPercentFromADC raw ≤ SOIL_ON_THR →
       (controlStep now raw s).pumpLastOnMs = wrap32 now)
  ∧ (s.pumpMode = .PM_ON →
       (controlStep now raw s).pumpLastOnMs = s.pumpLastOnMs) := by
  refine ⟨?_, ?_, ?_⟩
  · intro hne
    cases h1 : s.pumpMode
    case PM_OFF =>
      exfalso
      cases h2 : s.pumpOn
      · rw [controlStep_off_stay h1 h2] at hne; exact hne rfl
      · rw [controlStep_off_turn_off h1 h2] at hne; exact hne rfl
    case PM_AUTO =>
      cases h2 : s.pumpOn
      · by_cases h3 : soilPercentFromADC raw ≤ SOIL_ON_THR
        · rw [controlStep_auto_turn_on h1 h2 h3]
          exact ⟨rfl, rfl, h3, rfl, rfl⟩
        · exfalso; rw [controlStep_auto_idle h1 h2 h3] at hne; exact hne rfl
      · exfalso
        by_cases h3 : PUMP_MIN_ON_MS ≤ sub32 now s.pumpLastOnMs
                      ∧ SOIL_OFF_THR ≤ soilPercentFromADC raw
        · rw [controlStep_auto_turn_off h1 h2 h3.1 h3.2] at hne; exact hne rfl
        · rw [controlStep_auto_keep_on h1 h2 h3] at hne; exact hne rfl
    case PM_ON =>
      exfalso
      cases h2 : s.pumpOn
      · rw [controlStep_on_turn_on h1 h2] at hne; exact hne rfl
      · rw [controlStep_on_stay h1 h2] at hne; exact hne rfl
  · intro h1 h2 h3
    rw [controlStep_auto_turn_on h1 h2 h3]
  · intro h1
    cases h2 : s.pumpOn
    · rw [controlStep_on_turn_on h1 h2]
    · rw [controlStep_on_stay h1 h2]

/-- Witness for the amended C9: the AUTO turn-on at time 7 records the
time; the mode-ON tick at time 5000 leaves pumpLastOnMs unchanged. -/
theorem pumpLastOn_auto_only_witness :
    (controlStep 7 2430 { initialState with pumpMode := .PM_AUTO }).pumpLastOnMs = wrap32 7
  ∧ (controlStep 5000 2000 { initialState with pumpMode := .PM_ON }).pumpLastOnMs
      = ({ initialState with pumpMode := .PM_ON } : DeviceState).pumpLastOnMs :=
  ⟨(pumpLastOn_auto_only _ 7 2430).2.1 rfl rfl (by decide),
   (pumpLastOn_auto_only _ 5000 2000).2.2 rfl⟩

/-- The LED endpoint never touches the pump state machine fields. -/
theorem handleSetLed_pump_fields (which : String) (a : Option String) (s : DeviceState) :
    (handleSetLed which a s).1.pumpMode = s.pumpMode
    ∧ (handleSetLed which a s).1.pumpOn = s.pumpOn
    ∧ (handleSetLed which a s).1.pumpLastOnMs = s.pumpLastOnMs := by
  cases a with
  | none => exact ⟨rfl, rfl, rfl⟩
  | some v =>
    simp only [handleSetLed]
    split_ifs <;> exact ⟨rfl, rfl, rfl⟩

/-- The telemetry endpoint never touches the pump state machine fields. -/
theorem handleSensors_pump_fields (t h : Option Rat) (raw : Int) (s : DeviceState) :
    (handleSensors t h raw s).1.pumpMode = s.pumpMode
    ∧ (handleSensors t h raw s).1.pumpOn = s.pumpOn
    ∧ (handleSensors t h raw s).1.pumpLastOnMs = s.pumpLastOnMs := by
  simp only [handleSensors]
  split_ifs <;> exact ⟨rfl, rfl, rfl⟩

/-- The pump-set endpoint never touches pumpOn or pumpLastOnMs. -/
theorem handlePumpSet_on_lastOn (m : Option String) (s : DeviceState) :
    (handlePumpSet m s).1.pumpOn = s.pumpOn
    ∧ (handlePumpSet m s).1.pumpLastOnMs = s.pumpLastOnMs := by
  cases m with
  | none => exact ⟨rfl, rfl⟩
  | some arg =>
    simp only [handlePumpSet]
    split_ifs <;> exact ⟨rfl, rfl⟩

/-- A pump-set request whose argument is invalid or uppercases to AUTO
leaves an AUTO mode in place. -/
theorem handlePumpSet_keeps_auto (arg : String) (s : DeviceState)
    (h1 : s.pumpMode = .PM_AUTO)
    (h2 : modeOfUpper (upperStr arg) = none
          ∨ modeOfUpper (upperStr arg) = some .PM_AUTO) :
    (handlePumpSet (some arg) s).1.pumpMode = .PM_AUTO := by
  unfold modeOfUpper at h2
  simp only [handlePumpSet]
  split_ifs at h2 ⊢ <;> first
    | rfl
    | exact h1
    | rcases h2 with h2 | h2 <;> exact absurd h2 (by simp)

/-- Invariant used for C1: a state that is in AUTO with the pump on and
pumpLastOnMs=T keeps all three properties across any interleaving of
control ticks whose times lie in the minimum-on window of T and request
handler runs that keep the mode AUTO. -/
theorem runEvents_auto_hold (T : Nat) (es : List Event) :
    ∀ st : DeviceState, st.pumpMode = .PM_AUTO → st.pumpOn = true →
      st.pumpLastOnMs = wrap32 T →
      (∀ e ∈ es, keepsAuto e ∧ tickTimesIn T (T + PUMP_MIN_ON_MS) e) →
      (runEvents st es).pumpMode = .PM_AUTO
        ∧ (runEvents st es).pumpOn = true
        ∧ (runEvents st es).pumpLastOnMs = wrap32 T := by
  induction es with
  | nil => intro st h1 h2 h3 _; exact ⟨h1, h2, h3⟩
  | cons e rest ih =>
    intro st h1 h2 h3 h4
    have he := h4 e (List.mem_cons_self e rest)
    have hstep : (applyEvent st e).pumpMode = .PM_AUTO
        ∧ (applyEvent st e).pumpOn = true
        ∧ (applyEvent st e).pumpLastOnMs = wrap32 T := by
      cases e with
      | tick now raw =>
        have hw : T ≤ now ∧ now < T + PUMP_MIN_ON_MS := he.2
        have hmin : ¬ (PUMP_MIN_ON_MS ≤ sub32 now st.pumpLastOnMs
                       ∧ SOIL_OFF_THR ≤ soilPercentFromADC raw) := by
          rintro ⟨hge, -⟩
          have hlt : now - T < 4294967296 := by
            have := hw.2; simp only [PUMP_MIN_ON_MS] at this; omega
          rw [h3, sub32_wrap_right, sub32_of_le now T hw.1 hlt] at hge
          simp only [PUMP_MIN_ON_MS] at hge
          have := hw.2; simp only [PUMP_MIN_ON_MS] at this
          omega
        simp only [applyEvent]
        rw [controlStep_auto_keep_on h1 h2 hmin]
        exact ⟨h1, h2, h3⟩
      | ledReq w a =>
        have hl := handleSetLed_pump_fields w a st
        exact ⟨hl.1.trans h1, hl.2.1.trans h2, hl.2.2.trans h3⟩
      | pumpReq m =>
        cases m with
        | none => exact ⟨h1, h2, h3⟩
        | some arg =>
          have ho := handlePumpSet_on_lastOn (some arg) st
          exact ⟨handlePumpSet_keeps_auto arg st h1 he.1,
                 ho.1.trans h2, ho.2.trans h3⟩
      | sensorsReq t h raw =>
        have hl := handleSensors_pump_fields t h raw st
        exact ⟨hl.1.trans h1, hl.2.1.trans h2, hl.2.2.trans h3⟩
      | pumpGetReq => exact ⟨h1, h2, h3⟩
      | stateGetReq => exact ⟨h1, h2, h3⟩
    have hrun : runEvents st (e :: rest) = runEvents (applyEvent st e) rest := rfl
    rw [hrun]
    exact ih _ hstep.1 hstep.2.1 hstep.2.2
      (fun q hq => h4 q (List.mem_cons_of_mem e hq))

/-- C1: once a control tick at time T switches the pump from off to on in
AUTO mode, then along any continuation of the execution (control ticks
interleaved with request handler runs) in which the mode stays AUTO and
all tick times lie in [T, T+10000), the pump is still on at every point,
whatever the soil readings; and a tick may switch the pump from on to off
only when both the minimum-on time has elapsed since pumpLastOnMs and the
soil percentage is at or above the OFF threshold 55. -/
theorem auto_min_on_enforcement :
    (∀ (s : DeviceState) (T : Nat) (raw0 : Int) (es : List Event),
        s.pumpMode = .PM_AUTO → s.pumpOn = false →
        (controlStep T raw0 s).pumpOn = true →
        (∀ e ∈ es, keepsAuto e ∧ tickTimesIn T (T + PUMP_MIN_ON_MS) e) →
        ∀ k : Nat,
          (runEvents (controlStep T raw0 s) (List.take k es)).pumpOn = true)
  ∧ (∀ (s : DeviceState) (now : Nat) (raw : Int),
        s.pumpMode = .PM_AUTO → s.pumpOn = true →
        (controlStep now raw s).pumpOn = false →
        PUMP_MIN_ON_MS ≤ sub32 now s.pumpLastOnMs
          ∧ SOIL_OFF_THR ≤ soilPercentFromADC raw) := by
  constructor
  · intro s T raw0 es h1 h2 hon h4 k
    have h3 : soilPercentFromADC raw0 ≤ SOIL_ON_THR := by
      by_contra h3
      rw [controlStep_auto_idle h1 h2 h3] at hon
      simp [h2] at hon
    rw [controlStep_auto_turn_on h1 h2 h3]
    exact (runEvents_auto_hold T (List.take k es)
      { s with lastReadMs := wrap32 T, pumpOn := true,
               pumpLastOnMs := wrap32 T, pumpPin := true }
      h1 rfl rfl (fun e hp => h4 e (List.take_subset k es hp))).2.1
  · intro s now raw h1 h2 hoff
    by_cases h3 : PUMP_MIN_ON_MS ≤ sub32 now s.pumpLastOnMs
                  ∧ SOIL_OFF_THR ≤ soilPercentFromADC raw
    · exact h3
    · exfalso
      rw [controlStep_auto_keep_on h1 h2 h3] at hoff
      simp [h2] at hoff

/-- Witness for C1: from an AUTO state the tick at time 0 with raw 2900
(soil 5) turns the pump on; a tick at time 4000 with raw 1000 (soil 100,
far above the OFF threshold) interleaved with an LED request still leaves
the pump on, since only 4000 ms of the 10000 ms minimum have elapsed. -/
theorem auto_min_on_enforcement_witness :
    (runEvents (controlStep 0 2900 { initialState with pumpMode := .PM_AUTO })
       (List.take 2 [Event.ledReq "red" (some "9"), Event.tick 4000 1000])).pumpOn
      = true :=
  auto_min_on_enforcement.1 _ 0 2900
    [Event.ledReq "red" (some "9"), Event.tick 4000 1000]
    rfl rfl (by decide)
    (by
      intro e he
      fin_cases he
      · exact ⟨trivial, trivial⟩
      · exact ⟨trivial, by decide, by decide⟩)
    2

/-! ### Request handler claims -/

/-- C4 counterexample: at time 2000 the sampling cadence has elapsed and
the timed loop tick runs, yet it leaves the temperature/humidity cache and
the DHT status flag untouched even though the probe has a good reading
available, as the telemetry handler run on the very same state shows: the
2000 ms tick reads only the soil sensor, not the DHT probe. -/
theorem control_tick_no_probe_read_cex :
    READ_INTERVAL_MS ≤ sub32 (wrap32 2000) initialState.lastReadMs
  ∧ (loopIter 2000 2400 initialState).lastTempC = none
  ∧ (loopIter 2000 2400 initialState).lastHumidity = none
  ∧ (loopIter 2000 2400 initialState).dhtOk = false
  ∧ (handleSensors (some 25) (some 40) 2400 initialState).1.lastTempC = some 25
  ∧ (handleSensors (some 25) (some 40) 2400 initialState).1.dhtOk = true := by
  decide

/-- C4 amended: the temperature/humidity probe is read by the telemetry
request handler (invoked per request; the dashboard polls it every
2000 ms), not by the device's timed 2000 ms tick; on a successful read the
handler overwrites the cached values and sets the sensor flag, on a failed
read it leaves the cache untouched and clears the flag, and it always
reports the freshly mapped soil percentage. -/
theorem sensors_handler_cache_semantics (t h : Option Rat) (raw : Int) (s : DeviceState) :
    ((t ≠ none ∧ h ≠ none) →
       ((handleSensors t h raw s).1.lastTempC = t
        ∧ (handleSensors t h raw s).1.lastHumidity = h
        ∧ (handleSensors t h raw s).1.dhtOk = true))
  ∧ ((t = none ∨ h = none) →
       ((handleSensors t h raw s).1.lastTempC = s.lastTempC
        ∧ (handleSensors t h raw s).1.lastHumidity = s.lastHumidity
        ∧ (handleSensors t h raw s).1.dhtOk = false))
  ∧ (handleSensors t h raw s).2.soil = soilPercentFromADC raw
  ∧ (handleSensors t h raw s).2.sensorOk = (t.isSome && h.isSome) := by
  cases t <;> cases h <;> simp [handleSensors]

/-- Witness for the amended C4: a successful probe read overwrites the
cache and sets the flag; a failed read (NAN temperature) on a warm cache
leaves the cached value and clears the flag. -/
theorem sensors_handler_cache_semantics_witness :
    (handleSensors (some 25) (some 40) 2400 initialState).1.lastTempC = some 25
  ∧ (handleSensors (some 25) (some 40) 2400 initialState).1.dhtOk = true
  ∧ (handleSensors none (some 40) 2400
       { initialState with lastTempC := some 19, dhtOk := true }).1.lastTempC = some 19
  ∧ (handleSensors none (some 40) 2400
       { initialState with lastTempC := some 19, dhtOk := true }).1.dhtOk = false := by
  have h1 := sensors_handler_cache_semantics (some 25) (some 40) 2400 initialState
  have h2 := sensors_handler_cache_semantics none (some 40) 2400
    { initialState with lastTempC := some 19, dhtOk := true }
  exact ⟨(h1.1 (by simp)).1, (h1.1 (by simp)).2.2,
         (h2.2.1 (Or.inl rfl)).1, (h2.2.1 (Or.inl rfl)).2.2⟩

/-- C5: for every integer value v carried by the value argument (any
argument string parsing to v), the level stored in DeviceState, the duty
written to the PWM driver, the persisted byte and the value echoed in the
response body all equal clamp(v,0,255); out-of-range values are clamped,
never rejected: the response code is always 200. -/
theorem led_value_clamped (v : Int) (a : String) (which : String) (s : DeviceState)
    (hparse : atolM a = v) (hw : which = "red" ∨ which = "blue") :
    (handleSetLed which (some a) s).2.code = 200
  ∧ (handleSetLed which (some a) s).2.body
      = "\x7b\"ok\":true,\"" ++ which ++ "\":" ++ toString (clamp255 v) ++ "\x7d"
  ∧ 0 ≤ clamp255 v ∧ clamp255 v ≤ 255
  ∧ (which = "red" →
       ((handleSetLed which (some a) s).1.redLevel : Int) = clamp255 v
       ∧ (handleSetLed which (some a) s).1.pwmRed = clamp255 v
       ∧ (handleSetLed which (some a) s).1.prefs.red
           = some (handleSetLed which (some a) s).1.redLevel)
  ∧ (which = "blue" →
       ((handleSetLed which (some a) s).1.blueLevel : Int) = clamp255 v
       ∧ (handleSetLed which (some a) s).1.pwmBlue = clamp255 v
       ∧ (handleSetLed which (some a) s).1.prefs.blue
           = some (handleSetLed which (some a) s).1.blueLevel) := by
  have hcb : 0 ≤ clamp255 v ∧ clamp255 v ≤ 255 := by
    unfold clamp255; split_ifs <;> omega
  have hu8 : ((u8ofInt (clamp255 v)) : Int) = clamp255 v := by
    unfold u8ofInt
    rw [Int.emod_eq_of_lt hcb.1 (by omega), Int.toNat_of_nonneg hcb.1]
  rcases hw with rfl | rfl <;>
    simp [handleSetLed, hparse, hu8, hcb.1, hcb.2]

/-- Witness for C5: value 300 on the red channel is clamped to 255 and
accepted with a 200 response. -/
theorem led_value_clamped_witness :
    (handleSetLed "red" (some "300") initialState).2.code = 200
  ∧ ((handleSetLed "red" (some "300") initialState).1.redLevel : Int) = clamp255 300 := by
  have h := led_value_clamped 300 "300" "red" initialState (by decide) (Or.inl rfl)
  exact ⟨h.1, (h.2.2.2.2.1 rfl).1⟩

/-- A value string that is not numeric parses to 0 under `atolM`. -/
theorem atolM_of_not_numeric (str : String) (h : startsNumeric str = false) :
    atolM str = 0 := by
  unfold startsNumeric at h
  unfold atolM
  generalize str.toList.dropWhile (fun c =>
    c = ' ' || c = '\t' || c = '\n' || c = '\x0b' || c = '\x0c' || c = '\r') = l at h ⊢
  split at h <;>
    simp only [Bool.not_eq_false', List.isEmpty_iff] at h
  · dsimp only
    simp [h]
  · dsimp only
    simp [h]
  · rename_i hne1 hne2
    dsimp only
    split
    · rename_i rest
      exact absurd rfl (hne1 rest)
    · rename_i rest
      exact absurd rfl (hne2 rest)
    · simp [h]

/-- C10: a present but non-numeric value argument (no digit after optional
whitespace and sign, e.g. "abc") is not rejected by the LED endpoints: it
parses to 0, so the handler stores, applies and persists level 0 and
answers 200 reporting the channel value 0. -/
theorem led_nonnumeric_value_sets_zero (a : String) (which : String) (s : DeviceState)
    (hw : which = "red" ∨ which = "blue") (hnn : startsNumeric a = false) :
    (handleSetLed which (some a) s).2.code = 200
  ∧ (handleSetLed which (some a) s).2.body
      = "\x7b\"ok\":true,\"" ++ which ++ "\":" ++ toString (0 : Int) ++ "\x7d"
  ∧ (which = "red" → (handleSetLed which (some a) s).1.redLevel = 0
       ∧ (handleSetLed which (some a) s).1.pwmRed = 0
       ∧ (handleSetLed which (some a) s).1.prefs.red = some 0)
  ∧ (which = "blue" → (handleSetLed which (some a) s).1.blueLevel = 0
       ∧ (handleSetLed which (some a) s).1.pwmBlue = 0
       ∧ (handleSetLed which (some a) s).1.prefs.blue = some 0) := by
  have h0 : atolM a = 0 := atolM_of_not_numeric a hnn
  rcases hw with rfl | rfl <;>
    simp [handleSetLed, h0, clamp255, u8ofInt]

/-- Witness for C10: value "abc" on the red channel is accepted and sets
level 0. -/
theorem led_nonnumeric_value_sets_zero_witness :
    (handleSetLed "red" (some "abc") initialState).2.code = 200
  ∧ (handleSetLed "red" (some "abc") initialState).1.redLevel = 0
  ∧ (handleSetLed "red" (some "abc") initialState).1.prefs.red = some 0 := by
  have h := led_nonnumeric_value_sets_zero "abc" "red" initialState (Or.inl rfl) (by decide)
  exact ⟨h.1, (h.2.2.1 rfl).1, (h.2.2.1 rfl).2.2⟩

/-- C7: the pump-set endpoint: an absent mode argument, or one not
matching OFF/AUTO/ON case-insensitively, yields a 400 client error and
leaves the whole device state (pumpMode, pumpOn, persisted store)
unchanged; a matching argument stores the uppercased mode, persists it,
answers 200, and touches nothing else. -/
theorem pump_set_validation (m0 : Option String) (s : DeviceState) :
    (m0 = none →
       handlePumpSet m0 s = (s, ⟨400, "\x7b\"error\":\"missing mode\"\x7d"⟩))
  ∧ (∀ m, m0 = some m → modeOfUpper (upperStr m) = none →
       (handlePumpSet m0 s).1 = s ∧ (handlePumpSet m0 s).2.code = 400)
  ∧ (∀ m md, m0 = some m → modeOfUpper (upperStr m) = some md →
       (handlePumpSet m0 s).2.code = 200
       ∧ (handlePumpSet m0 s).1.pumpMode = md
       ∧ (handlePumpSet m0 s).1.prefs.pump = some (pumpModeCode md)
       ∧ (handlePumpSet m0 s).1.pumpOn = s.pumpOn
       ∧ (handlePumpSet m0 s).1.redLevel = s.redLevel
       ∧ (handlePumpSet m0 s).1.blueLevel = s.blueLevel
       ∧ (handlePumpSet m0 s).1.prefs.red = s.prefs.red
       ∧ (handlePumpSet m0 s).1.prefs.blue = s.prefs.blue) := by
  refine ⟨?_, ?_, ?_⟩
  · rintro rfl; rfl
  · rintro m rfl hmo
    unfold modeOfUpper at hmo
    by_cases h1 : upperStr m = "OFF"
    · rw [if_pos h1] at hmo; exact absurd hmo (by simp)
    by_cases h2 : upperStr m = "AUTO"
    · rw [if_neg h1, if_pos h2] at hmo; exact absurd hmo (by simp)
    by_cases h3 : upperStr m = "ON"
    · rw [if_neg h1, if_neg h2, if_pos h3] at hmo; exact absurd hmo (by simp)
    simp only [handlePumpSet]
    rw [if_neg h1, if_neg h2, if_neg h3]
    exact ⟨rfl, rfl⟩
  · rintro m md rfl hmo
    unfold modeOfUpper at hmo
    by_cases h1 : upperStr m = "OFF"
    · rw [if_pos h1] at hmo
      injection hmo with hmo'
      subst hmo'
      simp only [handlePumpSet]
      rw [if_pos h1]
      exact ⟨rfl, rfl, rfl, rfl, rfl, rfl, rfl, rfl⟩
    by_cases h2 : upperStr m = "AUTO"
    · rw [if_neg h1, if_pos h2] at hmo
      injection hmo with hmo'
      subst hmo'
      simp only [handlePumpSet]
      rw [if_neg h1, if_pos h2]
      exact ⟨rfl, rfl, rfl, rfl, rfl, rfl, rfl, rfl⟩
    by_cases h3 : upperStr m = "ON"
    · rw [if_neg h1, if_neg h2, if_pos h3] at hmo
      injection hmo with hmo'
      subst hmo'
      simp only [handlePumpSet]
      rw [if_neg h1, if_neg h2, if_pos h3]
      exact ⟨rfl, rfl, rfl, rfl, rfl, rfl, rfl, rfl⟩
    rw [if_neg h1, if_neg h2, if_neg h3] at hmo
    exact absurd hmo (by simp)

/-- Witness for C7: mode "FAST" is rejected with 400 and changes nothing;
mode "auto" matches case-insensitively and is stored and persisted. -/
theorem pump_set_validation_witness :
    ((handlePumpSet (some "FAST") initialState).1 = initialState
      ∧ (handlePumpSet (some "FAST") initialState).2.code = 400)
  ∧ ((handlePumpSet (some "auto") initialState).2.code = 200
      ∧ (handlePumpSet (some "auto") initialState).1.pumpMode = .PM_AUTO
      ∧ (handlePumpSet (some "auto") initialState).1.prefs.pump
          = some (pumpModeCode .PM_AUTO)) := by
  have h1 := (pump_set_validation (some "FAST") initialState).2.1 "FAST" rfl (by decide)
  have h2 := (pump_set_validation (some "auto") initialState).2.2 "auto" .PM_AUTO rfl
    (by decide)
  exact ⟨h1, h2.1, h2.2.1, h2.2.2.1⟩

/-- C8: setting the red LED to 200 stores 200; a following GetState call
reports red=200; after a simulated reboot that reloads the persisted
store, the red level is still 200 and GetState still reports it. -/
theorem led_red_roundtrip (s : DeviceState) :
    (handleSetLed "red" (some "200") s).1.redLevel = 200
  ∧ (handleStateGet (handleSetLed "red" (some "200") s).1).body
      = "\x7b\"red\":" ++ toString (200 : Nat) ++ ",\"blue\":" ++ toString s.blueLevel
          ++ ",\"pump\":" ++ toString (pumpModeCode s.pumpMode) ++ "\x7d"
  ∧ (bootState (handleSetLed "red" (some "200") s).1.prefs).redLevel = 200
  ∧ (handleStateGet (bootState (handleSetLed "red" (some "200") s).1.prefs)).body
      = "\x7b\"red\":" ++ toString (200 : Nat) ++ ",\"blue\":" ++ toString (s.prefs.blue.getD 0)
          ++ ",\"pump\":"
          ++ toString (pumpModeCode (pumpModeOfCode (s.prefs.pump.getD 0)))
          ++ "\x7d" := by
  have hset : (handleSetLed "red" (some "200") s).1
      = { s with redLevel := 200, pwmRed := 200,
                 prefs := { s.prefs with red := some 200 } } := by
    simp [handleSetLed, show atolM "200" = 200 by decide,
          show clamp255 200 = 200 by decide, show u8ofInt 200 = 200 by decide]
  rw [hset]
  exact ⟨rfl, rfl, rfl, rfl⟩

end SpaceFarm
